import Mathlib

/-
Verification of the QuizBusterBack authentication-and-scoring core against its
specification. The definitions are shallow embeddings of the Python sources:
Database/user_operations.py, Microservice/user_service.py,
Microservice/quizbuster_service.py, Utils/auth_utils.py, main.py and
Config/jwt_config.py. The backing PostgreSQL "User" table is an association
list keyed by the primary-key username; Python exceptions crossing an
operation's boundary are an explicit error type; the clock and the bcrypt salt,
which the sources draw from the environment, are explicit arguments.
-/

deriving instance DecidableEq for Except

namespace QuizBuster

/-- A row of the "User" table: the password (hash) text, the role text and the
nullable integer score. The username is the primary key and is kept as the key
of the association list standing for the table. -/
structure UserRow where
  password : String
  role : String
  score : Option Int
deriving DecidableEq, Repr

/-- The "User" table. -/
abbrev DB := List (String × UserRow)

/-- SELECT ... FROM "User" WHERE "username" = u (the primary key is unique, so
the first match is the row). -/
def dbFetch (db : DB) (username : String) : Option UserRow :=
  (db.find? (fun r => r.1 == username)).map (fun r => r.2)

/-- UPDATE "User" SET "score" = s WHERE "username" = u. -/
def dbUpdateScore (db : DB) (username : String) (newScore : Int) : DB :=
  db.map (fun r => if r.1 == username then (r.1, { r.2 with score := some newScore }) else r)

/-- The Python exceptions that cross the boundaries of the modelled operations. -/
inductive PyError where
  -- TypeError ('NoneType' object is not subscriptable), raised by create_user
  -- when fetchone returned None
  | typeError
  -- psycopg OperationalError, raised when a statement runs on a closed connection
  | operationalError
  -- psycopg unique-constraint violation, raised by INSERT on an existing primary key
  | uniqueViolation
  -- fastapi HTTPException with its status code and detail text
  | httpException (status : Nat) (detail : String)
deriving DecidableEq, Repr

/-- The 401 exception raised by verify_user_token in main.py and in
Utils/auth_utils.py. -/
def credentials_exception : PyError :=
  PyError.httpException 401 "Could not validate credentials"

/-- UserModel (Database/user_operations.py 19-33) as built by create_user from a
(username, password, score) row. -/
structure UserModel where
  username : String
  password : String
  score : Option Int
deriving DecidableEq, Repr

/-- create_user (Database/user_operations.py 36-52): builds a UserModel from the
fetched row. Called on None (no row was fetched) it evaluates user_result[0]
and raises TypeError. -/
def create_user (user_result : Option (String × String × Option Int)) :
    Except PyError UserModel :=
  match user_result with
  | none => Except.error PyError.typeError
  | some (u, p, s) => Except.ok (UserModel.mk u p s)

/-- get_user_data (Database/user_operations.py 128-176) on a fresh connection:
SELECT the row, close the connection, then create_user on the fetched tuple.
The Option in the result mirrors the Optional[UserModel] type the callers
test against None; on success the value is always some, and for an absent user
the function raises TypeError (from create_user) instead of returning None. -/
def get_user_data (db : DB) (username : String) : Except PyError (Option UserModel) :=
  match create_user ((dbFetch db username).map (fun r => (username, r.password, r.score))) with
  | Except.error e => Except.error e
  | Except.ok m => Except.ok (some m)

/-- A psycopg connection: the database it acts on and whether it was closed. -/
structure Conn where
  db : DB
  closed : Bool

/-- get_user_data when an existing connection is passed (update_points passes its
own connection to stay inside one transaction): the SELECT runs on that
connection, and then the function closes it — the source closes the connection
unconditionally (user_operations.py line 166), also when the caller passed it
in. A statement on an already closed connection raises OperationalError. -/
def get_user_data_on (conn : Conn) (username : String) :
    (Except PyError (Option UserModel)) × Conn :=
  if conn.closed then (Except.error PyError.operationalError, conn)
  else
    let fetched := (dbFetch conn.db username).map (fun r => (username, r.password, r.score))
    let conn' : Conn := { conn with closed := true }
    match create_user fetched with
    | Except.error e => (Except.error e, conn')
    | Except.ok m => (Except.ok (some m), conn')

/-- update_points (Database/user_operations.py 183-231): open a connection and a
cursor, call get_user_data on the same connection, add the points to the
current score (a None score counted as 0), then run the UPDATE on the same
cursor and commit, returning the new total. Because get_user_data closed the
shared connection, the UPDATE statement raises OperationalError; the except
block re-raises it, so nothing is written or committed. -/
def update_points (db : DB) (username : String) (points : Int) :
    (Except PyError Int) × DB :=
  let conn : Conn := Conn.mk db false
  match get_user_data_on conn username with
  | (Except.error e, conn') => (Except.error e, conn'.db)
  | (Except.ok none, conn') =>
    -- unreachable: get_user_data raises rather than return None; reading
    -- user.score from None would raise AttributeError
    (Except.error PyError.typeError, conn'.db)
  | (Except.ok (some user), conn') =>
    let current_score : Int := user.score.getD 0
    let updated_points : Int := current_score + points
    if conn'.closed then (Except.error PyError.operationalError, conn'.db)
    else (Except.ok updated_points, dbUpdateScore conn'.db username updated_points)

/-- user_exists (Database/user_operations.py 89-125): SELECT 1 for the username
and test whether fetchone returned a row. -/
def user_exists (db : DB) (username : String) : Bool :=
  (dbFetch db username).isSome

/-- insert_user (Database/user_operations.py 55-86): INSERT the new row (the
score column is absent from the statement and defaults to NULL). The username
column is the primary key, so inserting an existing username makes the
statement raise a unique-constraint violation, which the except block
re-raises unchanged. -/
def insert_user (db : DB) (username password role : String) : Except PyError DB :=
  if user_exists db username then Except.error PyError.uniqueViolation
  else Except.ok (db ++ [(username, UserRow.mk password role none)])

/-- Modelled from the spec: the bcrypt digest that passlib computes is not part
of src/; per the Credential Hasher contract (spec 4.1) it is idealized as a
collision-free function of the plaintext, here an injective reversal. -/
def bcrypt_digest (password : String) : List Char :=
  password.data.reverse

/-- Modelled from the spec: get_password_hash (Microservice/user_service.py
57-66) wraps the passlib bcrypt context, a salted adaptive hash; the salt the
library draws at random is made an explicit argument, and the produced hash
string is the salt, a separator, then the digest of the plaintext. -/
def get_password_hash (password : String) (salt : Char) : String :=
  String.mk (salt :: '$' :: bcrypt_digest password)

/-- Modelled from the spec: verify_password (Microservice/user_service.py
69-79) wraps passlib verify, which reads the salt back out of the stored hash
string and compares the stored digest with the recomputed digest of the
submitted plaintext; a malformed hash string verifies as false. -/
def verify_password (plain_password : String) (hashed_password : String) : Bool :=
  match hashed_password.data with
  | _salt :: c :: rest => c == '$' && rest == bcrypt_digest plain_password
  | _ => false

/-- SECRET_KEY (Config/jwt_config.py line 19): the symmetric signing key. -/
def SECRET_KEY : String :=
  "4ddbb4ed971024eba33f24912a5e229c72e02c40f8fcb467a34b5b99fbb08d35"

/-- ACCESS_TOKEN_EXPIRE_MINUTES (Config/jwt_config.py line 23): the token
lifetime in minutes. -/
def ACCESS_TOKEN_EXPIRE_MINUTES : Int := 30

/-- The claims of a token: the sub claim (the subject username, possibly
absent) and the exp claim as a Unix timestamp in seconds. -/
structure Claims where
  sub : Option String
  exp : Int
deriving DecidableEq, Repr

/-- Modelled from the spec: the HMAC-SHA256 signature over the full envelope,
idealized as a collision-free MAC — the value determines and is determined by
the key and the signed claims. -/
structure Signature where
  key : String
  signed : Claims
deriving DecidableEq, Repr

/-- Signing under the idealized MAC. -/
def hmac_sign (key : String) (payload : Claims) : Signature :=
  Signature.mk key payload

/-- A JWT: its claims and its signature (the header is fixed by the HS256
ALGORITHM constant and carries no further information, so it is omitted). -/
structure JwtToken where
  claims : Claims
  sig : Signature
deriving DecidableEq, Repr

/-- The distinguishable failure kinds of the Token Codec (spec 4.2). -/
inductive TokenError where
  | malformed
  | expired
  | missingSubject
deriving DecidableEq, Repr

/-- Modelled from the spec: jwt.encode (the PyJWT library, not part of src/) —
sign the payload with the key. -/
def jwt_encode (payload : Claims) (key : String) : JwtToken :=
  JwtToken.mk payload (hmac_sign key payload)

/-- Modelled from the spec: jwt.decode (the PyJWT library, not part of src/) —
check the signature over the full envelope, then validate the exp claim with
zero leeway: the token is expired as soon as exp is not in the future. Both
failures are kinds of InvalidTokenError to the callers. -/
def jwt_decode (token : JwtToken) (key : String) (now : Int) : Except TokenError Claims :=
  if token.sig = hmac_sign key token.claims then
    if token.claims.exp ≤ now then Except.error TokenError.expired
    else Except.ok token.claims
  else Except.error TokenError.malformed

/-- create_access_token (Microservice/user_service.py 128-148): copy the data
(its sub claim), set exp to the current time plus ACCESS_TOKEN_EXPIRE_MINUTES,
and encode with SECRET_KEY. The clock read from datetime.now is made an
explicit argument. -/
def create_access_token (sub : Option String) (now : Int) : JwtToken :=
  jwt_encode (Claims.mk sub (now + ACCESS_TOKEN_EXPIRE_MINUTES * 60)) SECRET_KEY

/-- The Token Codec verify operation of the spec (section 4.2): decode, then
extract the subject, failing with MissingSubject when no sub claim is there. -/
def token_verify (token : JwtToken) (now : Int) : Except TokenError String :=
  match jwt_decode token SECRET_KEY now with
  | Except.error e => Except.error e
  | Except.ok payload =>
    match payload.sub with
    | none => Except.error TokenError.missingSubject
    | some s => Except.ok s

/-- get_user (Microservice/user_service.py 87-96): fetch the user via
get_user_data on a fresh connection. -/
def get_user (db : DB) (username : String) : Except PyError (Option UserModel) :=
  get_user_data db username

/-- authenticate_user (Microservice/user_service.py 99-121): fetch the user,
return None when it is falsy or the password does not verify against the
stored hash, else return the user. -/
def authenticate_user (db : DB) (username password : String) :
    Except PyError (Option UserModel) :=
  match get_user db username with
  | Except.error e => Except.error e
  | Except.ok none => Except.ok none
  | Except.ok (some user) =>
    if ! verify_password password user.password then Except.ok none
    else Except.ok (some user)

/-- The Token response model (Microservice/user_service.py 37-41). -/
structure Token where
  access_token : JwtToken
  token_type : String
deriving DecidableEq, Repr

/-- login (Microservice/user_service.py 185-214): authenticate, raise the 401
on failure, else issue a token for the username. -/
def login (db : DB) (username password : String) (now : Int) : Except PyError Token :=
  match authenticate_user db username password with
  | Except.error e => Except.error e
  | Except.ok none =>
    Except.error (PyError.httpException 401 "Falscher Nutzername oder Passwort")
  | Except.ok (some user) =>
    Except.ok (Token.mk (create_access_token (some user.username) now) "bearer")

/-- register (Microservice/user_service.py 155-182) with the outcome of its
user_exists pre-check abstracted: under a concurrent registration the check
may have observed a snapshot in which the name was still free while the
insert runs against the current table; the sequential case passes the check
against the same table (see register below). -/
def register_given_check (found : Bool) (db : DB) (username password : String)
    (salt : Char) (now : Int) : (Except PyError Token) × DB :=
  if found then
    (Except.error (PyError.httpException 409 "Benutzername bereits vergeben"), db)
  else
    let hashed_password := get_password_hash password salt
    match insert_user db username hashed_password "user" with
    | Except.error e => (Except.error e, db)
    | Except.ok db' =>
      (Except.ok (Token.mk (create_access_token (some username) now) "bearer"), db')

/-- register (Microservice/user_service.py 155-182), sequential: the
pre-check runs against the same table state as the insert. -/
def register (db : DB) (username password : String) (salt : Char) (now : Int) :
    (Except PyError Token) × DB :=
  register_given_check (user_exists db username) db username password salt now

/-- register of Microservice/quizbuster_service.py 27-35: check existence (404
on a duplicate) and insert the submitted password verbatim, without hashing. -/
def quizbuster_register (db : DB) (username password : String) :
    Except PyError (String × DB) :=
  if user_exists db username then
    Except.error (PyError.httpException 404 "Benutzername bereits vergeben")
  else
    match insert_user db username password "user" with
    | Except.error e => Except.error e
    | Except.ok db' => Except.ok (username ++ " erstellt", db')

/-- verify_user_token (main.py 60-105): decode the token — any
InvalidTokenError maps to the 401 credentials_exception, as does a missing sub
claim — then get_user, which runs outside the try block, so the TypeError that
get_user_data raises for an absent user propagates uncaught; finally the 401
if the fetched user is None (a branch get_user can in fact never take). -/
def verify_user_token (db : DB) (token : JwtToken) (now : Int) :
    Except PyError UserModel :=
  match jwt_decode token SECRET_KEY now with
  | Except.error _ => Except.error credentials_exception
  | Except.ok payload =>
    match payload.sub with
    | none => Except.error credentials_exception
    | some username =>
      match get_user db username with
      | Except.error e => Except.error e
      | Except.ok none => Except.error credentials_exception
      | Except.ok (some user) => Except.ok user

/-- verify_user_token of Utils/auth_utils.py 9-26, translated separately from
its own source text, to be compared with the main.py version. -/
def auth_utils_verify_user_token (db : DB) (token : JwtToken) (now : Int) :
    Except PyError UserModel :=
  match jwt_decode token SECRET_KEY now with
  | Except.error _ => Except.error credentials_exception
  | Except.ok payload =>
    match payload.sub with
    | none => Except.error credentials_exception
    | some username =>
      match get_user db username with
      | Except.error e => Except.error e
      | Except.ok none => Except.error credentials_exception
      | Except.ok (some user) => Except.ok user

/-- A store with one user, alice, of score 100 (the stored password text does
not matter for the score claims). -/
def aliceRow : UserRow := UserRow.mk "x" "user" (some 100)

/-- The store holding only aliceRow. -/
def db_alice : DB := [("alice", aliceRow)]

/-- A row for bob whose stored password is the hash of "pw". -/
def bobRow : UserRow := UserRow.mk (get_password_hash "pw" 's') "user" (some 0)

/-- The store holding only bobRow. -/
def db_bob : DB := [("bob", bobRow)]

/-- Two Strings with equal character data are equal. -/
theorem string_eq_of_data_eq {p q : String} (h : p.data = q.data) : p = q :=
  congrArg String.mk h

/-- C1: the claim states that update_points returns s + delta and that a later
fetch shows s + delta, read and write on one connection in one committed
transaction. On the code, get_user_data closes the shared connection before
the UPDATE runs, so update_points "alice" 25 on a store where alice has score
100 raises OperationalError and leaves the store unchanged, instead of
returning 125. -/
theorem c1_update_points_raises_and_writes_nothing :
    update_points db_alice "alice" 25 = (Except.error PyError.operationalError, db_alice) ∧
    (update_points db_alice "alice" 25).1 ≠ Except.ok 125 := by
  decide

/-- C2: the claim states that N concurrent add_points(u, 1) calls leave the
score at S + N and that same-row updates are serialized. On the code every
call fails before its UPDATE (the shared connection is closed mid-transaction,
and the read and the write are two separate statements with no row lock): two
add_points("alice", 1) calls, run one after the other from score 100, both
raise and leave the score at 100 rather than 102. -/
theorem c2_two_calls_add_nothing :
    (update_points db_alice "alice" 1).1 = Except.error PyError.operationalError ∧
    (update_points (update_points db_alice "alice" 1).2 "alice" 1).1
      = Except.error PyError.operationalError ∧
    dbFetch (update_points (update_points db_alice "alice" 1).2 "alice" 1).2 "alice"
      = some aliceRow := by
  decide

/-- C3: the claim states that login fails with the same 401 Unauthorized both
for an unknown username and for a wrong password. On the code, the
wrong-password case does give the 401, but an unknown username makes
get_user_data call create_user(None), raising TypeError — a different,
unhandled error kind. -/
theorem c3_unknown_user_distinguishable :
    login db_bob "alice" "pw" 0 = Except.error PyError.typeError ∧
    login db_bob "bob" "wrong" 0
      = Except.error (PyError.httpException 401 "Falscher Nutzername oder Passwort") ∧
    PyError.typeError ≠ PyError.httpException 401 "Falscher Nutzername oder Passwort" := by
  decide

/-- C4: the claim states that verify_user_token fails with the 401 also when
the token's subject names a user absent from the store. On the code, a valid
token whose subject is not in the store makes get_user raise TypeError, which
propagates instead of the 401; the bad-signature and missing-subject cases do
map to the 401. -/
theorem c4_deleted_user_not_unauthorized :
    verify_user_token db_bob (create_access_token (some "ghost") 0) 10
      = Except.error PyError.typeError ∧
    verify_user_token db_bob
      (JwtToken.mk (Claims.mk (some "ghost") 1800)
        (Signature.mk "wrong" (Claims.mk (some "ghost") 1800))) 10
      = Except.error credentials_exception ∧
    verify_user_token db_bob (create_access_token none 0) 10
      = Except.error credentials_exception ∧
    PyError.typeError ≠ credentials_exception := by
  decide

/-- C5: the claim states that a duplicate register fails with 409 Conflict and
no side effect, also when the duplicate is only caught by the uniqueness
constraint at insert time. On the code, the pre-check path does give the 409
and leaves the store unchanged, but when the check observed the name as free
and the insert then hits the constraint (the concurrent-registration race),
the raw unique-constraint violation propagates unwrapped, not as a 409. -/
theorem c5_insert_race_not_conflict :
    register db_bob "bob" "pw2" 't' 0
      = (Except.error (PyError.httpException 409 "Benutzername bereits vergeben"), db_bob) ∧
    register_given_check false db_bob "bob" "pw2" 't' 0
      = (Except.error PyError.uniqueViolation, db_bob) ∧
    PyError.uniqueViolation ≠ PyError.httpException 409 "Benutzername bereits vergeben" := by
  decide

/-- C6: verifying a token issued at t0 returns its subject for every
verification time t1 with t0 ≤ t1 < t0 + TTL and fails with Expired for every
t1 ≥ t0 + TTL, where TTL is the 30 minutes of ACCESS_TOKEN_EXPIRE_MINUTES
embedded as the exp claim at issue time. -/
theorem c6_ttl_window (sub : String) (t0 t1 : Int) :
    (t0 ≤ t1 → t1 < t0 + ACCESS_TOKEN_EXPIRE_MINUTES * 60 →
      token_verify (create_access_token (some sub) t0) t1 = Except.ok sub) ∧
    (t0 + ACCESS_TOKEN_EXPIRE_MINUTES * 60 ≤ t1 →
      token_verify (create_access_token (some sub) t0) t1
        = Except.error TokenError.expired) := by
  constructor
  · intro h1 h2
    have hlt : ¬ (t0 + ACCESS_TOKEN_EXPIRE_MINUTES * 60 ≤ t1) := by omega
    simp [token_verify, create_access_token, jwt_encode, jwt_decode, hmac_sign, hlt]
  · intro h
    simp [token_verify, create_access_token, jwt_encode, jwt_decode, hmac_sign, h]

/-- C6 at a concrete input: a token for bob issued at time 0 verifies at time
900 and is expired at time 1800. -/
theorem c6_ttl_window_witness :
    token_verify (create_access_token (some "bob") 0) 900 = Except.ok "bob" ∧
    token_verify (create_access_token (some "bob") 0) 1800
      = Except.error TokenError.expired :=
  ⟨(c6_ttl_window "bob" 0 900).1 (by decide) (by decide),
   (c6_ttl_window "bob" 0 1800).2 (by decide)⟩

/-- C7: keeping an issued token's signature but altering its claims in any way
makes the signature check fail, and decoding fails with the Malformed kind. -/
theorem c7_tamper_malformed (sub : Option String) (t0 now : Int) (claims' : Claims)
    (h : claims' ≠ (create_access_token sub t0).claims) :
    jwt_decode (JwtToken.mk claims' (create_access_token sub t0).sig) SECRET_KEY now
      = Except.error TokenError.malformed := by
  unfold jwt_decode
  rw [if_neg]
  intro hEq
  exact h (congrArg Signature.signed hEq).symm

/-- C7 at a concrete input: swapping the subject of a token issued for bob,
with the original signature kept, decodes as Malformed. -/
theorem c7_tamper_malformed_witness :
    jwt_decode
      (JwtToken.mk (Claims.mk (some "eve") 1800) (create_access_token (some "bob") 0).sig)
      SECRET_KEY 0
      = Except.error TokenError.malformed :=
  c7_tamper_malformed (some "bob") 0 0 (Claims.mk (some "eve") 1800) (by decide)

/-- C8: verify_password accepts the hash of the same plaintext, for every
plaintext (the empty string and arbitrary unicode included, Lean strings being
arbitrary unicode) and every salt, and rejects the hash of every other
plaintext. -/
theorem c8_hash_verify_roundtrip (p q : String) (salt : Char) (h : p ≠ q) :
    verify_password p (get_password_hash p salt) = true ∧
    verify_password p (get_password_hash q salt) = false := by
  constructor
  · simp [verify_password, get_password_hash]
  · simp [verify_password, get_password_hash, bcrypt_digest]
    intro hrev
    exact h (string_eq_of_data_eq hrev).symm

/-- C8 at a concrete input: the empty password verifies against its own hash
and not against the hash of a unicode password. -/
theorem c8_hash_verify_roundtrip_witness :
    verify_password "" (get_password_hash "" 'a') = true ∧
    verify_password "" (get_password_hash "münze" 'a') = false :=
  c8_hash_verify_roundtrip "" "münze" 'a' (by decide)

/-- C9: the claim states that no operation of the core stores a plaintext
password. The register of user_service.py stores the hasher output, which
differs from the plaintext; but the register of quizbuster_service.py inserts
the submitted password verbatim: registering alice with password hunter2
stores the string hunter2 itself in the password column. -/
theorem c9_quizbuster_stores_plaintext :
    quizbuster_register [] "alice" "hunter2"
      = Except.ok ("alice erstellt", [("alice", UserRow.mk "hunter2" "user" none)]) ∧
    (register [] "alice" "hunter2" 's' 0).2
      = [("alice", UserRow.mk (get_password_hash "hunter2" 's') "user" none)] ∧
    get_password_hash "hunter2" 's' ≠ "hunter2" := by
  decide

/-- C10 counterexample: the claim lists "subject with no user row" among the
conditions under which both implementations raise 401. At a validly signed,
unexpired token for ghost, a user absent from the store, neither raises the
401: both raise the propagated TypeError, a different error. -/
theorem c10_absent_subject_not_401 :
    verify_user_token db_bob (create_access_token (some "ghost") 5) 20
      = Except.error PyError.typeError ∧
    auth_utils_verify_user_token db_bob (create_access_token (some "ghost") 5) 20
      = Except.error PyError.typeError ∧
    PyError.typeError ≠ credentials_exception := by
  decide

/-- C10, amended: the verify_user_token of main.py and the verify_user_token
of Utils/auth_utils.py are behaviorally equivalent — for every store, token
and clock they return the same outcome — and their common behavior is: the
401 credentials_exception when the token does not decode (bad signature or
expired) and when the decoded payload lacks a sub claim; a propagated
TypeError, not the 401, when the sub names a user absent from the store; and
the resolved user otherwise. -/
theorem c10_verify_user_token_agree_cases :
    (∀ (db : DB) (token : JwtToken) (now : Int),
      verify_user_token db token now = auth_utils_verify_user_token db token now) ∧
    (∀ (db : DB) (token : JwtToken) (now : Int) (e : TokenError),
      jwt_decode token SECRET_KEY now = Except.error e →
      verify_user_token db token now = Except.error credentials_exception) ∧
    (∀ (db : DB) (token : JwtToken) (now : Int) (payload : Claims),
      jwt_decode token SECRET_KEY now = Except.ok payload → payload.sub = none →
      verify_user_token db token now = Except.error credentials_exception) ∧
    (∀ (db : DB) (token : JwtToken) (now : Int) (payload : Claims) (username : String),
      jwt_decode token SECRET_KEY now = Except.ok payload → payload.sub = some username →
      dbFetch db username = none →
      verify_user_token db token now = Except.error PyError.typeError) ∧
    (∀ (db : DB) (token : JwtToken) (now : Int) (payload : Claims) (username : String)
      (row : UserRow),
      jwt_decode token SECRET_KEY now = Except.ok payload → payload.sub = some username →
      dbFetch db username = some row →
      verify_user_token db token now
        = Except.ok (UserModel.mk username row.password row.score)) := by
  refine ⟨fun _ _ _ => rfl, ?_, ?_, ?_, ?_⟩
  · intro db token now e hdec
    simp [verify_user_token, hdec]
  · intro db token now payload hdec hsub
    simp [verify_user_token, hdec, hsub]
  · intro db token now payload username hdec hsub hfetch
    simp [verify_user_token, get_user, get_user_data, create_user, hdec, hsub, hfetch]
  · intro db token now payload username row hdec hsub hfetch
    simp [verify_user_token, get_user, get_user_data, create_user, hdec, hsub, hfetch]

/-- C10 amended at a concrete input: both implementations raise TypeError for
a valid token whose subject, nobody, has no row in the store. -/
theorem c10_verify_user_token_agree_cases_witness :
    verify_user_token db_bob (create_access_token (some "nobody") 0) 60
      = Except.error PyError.typeError :=
  c10_verify_user_token_agree_cases.2.2.2.1 db_bob (create_access_token (some "nobody") 0) 60
    (Claims.mk (some "nobody") 1800) "nobody" (by decide) rfl (by decide)

end QuizBuster
